import Mathlib

/-!
Verification of the pati_call dialogue core (src/app.py).

The embedding models Python strings as lists of characters.  The pure
classification helpers (`is_yes`, `is_no`, `looks_like_instagram`), the
state machine of the `/voice`, `/resposta` and `/status_callback` webhook
handlers, and the summarizer fallback are translated from the source;
external collaborators (Twilio, OpenAI chat completions, SMTP) appear only
through their observable effect on the per-call state, abstracted as
parameters (`Config`, the `gen : Option Str` outcome of a chat completion,
and effect counters in `CbState`).  Case mapping (`str.lower`) is modelled
on ASCII; every string reasoned about below is ASCII or already lower-case
(the only non-ASCII letters in the source keyword lists, such as the one
in the word for salon, are lower-case on both sides).
-/

namespace PatiCall

/-- Characters-as-lists model of Python `str`. -/
abbrev Str := List Char

/-- Turn a Lean string literal into the character-list model. -/
def strL (s : String) : Str := s.toList

/-- Python `str.strip()` whitespace set (ASCII part). -/
def isPyWs (c : Char) : Bool :=
  c = ' ' || c = '\t' || c = '\n' || c = '\r' || c = '\x0b' || c = '\x0c'

/-- Python `str.strip()` with no arguments: drop leading and trailing whitespace. -/
def pyStrip (s : Str) : Str :=
  ((s.dropWhile isPyWs).reverse.dropWhile isPyWs).reverse

/-- ASCII uppercase letter test. -/
def isUpper (c : Char) : Bool := decide (65 ≤ c.toNat) && decide (c.toNat ≤ 90)

/-- Python `str.lower()` on one character, restricted to ASCII. -/
def toLowerC (c : Char) : Char := if isUpper c then Char.ofNat (c.toNat + 32) else c

/-- Python `str.lower()`, restricted to ASCII. -/
def toLowerS (s : Str) : Str := s.map toLowerC

/-- Python `s.startswith(pat)`, and the match test of `str.replace`. -/
def isPre : Str → Str → Bool
  | [], _ => true
  | _ :: _, [] => false
  | a :: as, b :: bs => decide (a = b) && isPre as bs

/-- Python substring test `pat in s`. -/
def containsSub (pat : Str) : Str → Bool
  | [] => isPre pat []
  | c :: cs => isPre pat (c :: cs) || containsSub pat cs

/-- Worker for Python `str.replace(pat, rep)`: scan left to right; after a
match, `skip` further characters belong to the matched occurrence and are
consumed without a fresh match test. -/
def replAux (pat rep : Str) : Str → Nat → Str
  | [], _ => []
  | _ :: cs, Nat.succ k => replAux pat rep cs k
  | c :: cs, 0 =>
    if pat ≠ [] && isPre pat (c :: cs) then
      rep ++ replAux pat rep cs (pat.length - 1)
    else
      c :: replAux pat rep cs 0

/-- Python `str.replace(pat, rep)` for a nonempty pattern (the source only
replaces the patterns "arroba" and a single space). -/
def pyReplace (pat rep s : Str) : Str := replAux pat rep s 0

/-- `is_yes` from src/app.py: affirmation keywords, or the literal "1". -/
def is_yes (text : Str) : Bool :=
  let t := toLowerS (pyStrip text)
  containsSub (strL "sim") t || containsSub (strL "claro") t ||
  containsSub (strL "por favor") t || containsSub (strL "pode") t ||
  containsSub (strL "quero") t || containsSub (strL "manda") t ||
  containsSub (strL "yes") t || containsSub (strL "yep") t ||
  decide (t = strL "1")

/-- `is_no` from src/app.py: negation keywords, or the literal "2". -/
def is_no (text : Str) : Bool :=
  let t := toLowerS (pyStrip text)
  containsSub (strL "não") t || containsSub (strL "nao") t ||
  containsSub (strL "negativo") t || containsSub (strL "prefiro não") t ||
  containsSub (strL "prefiro nao") t || containsSub (strL "nope") t ||
  containsSub (strL "não agora") t ||
  decide (t = strL "2")

/-- The core transformation chain of `looks_like_instagram` applied to the
stripped text: `t.replace("arroba","@").replace(" ", "").lower()`. -/
def igCore (text : Str) : Str :=
  toLowerS (pyReplace (strL " ") [] (pyReplace (strL "arroba") (strL "@") (pyStrip text)))

/-- `looks_like_instagram` from src/app.py, the handle normalizer: strip the
ends; on empty input return empty; replace the (lower-case) word "arroba"
by "@", remove spaces, lower-case; keep the result if it starts with "@"
(first branch) or contains "@" anywhere (the pass branch of the source);
otherwise prefix "@". -/
def looks_like_instagram (text : Str) : Str :=
  if pyStrip text = [] then []
  else if isPre (strL "@") (igCore text) then igCore text
  else if containsSub (strL "@") (igCore text) then igCore text
  else '@' :: igCore text

/-- Caller profile values stored under `data["profile"]` ("pro" / "final"). -/
inductive Profile
  | pro
  | final
deriving DecidableEq

/-- The role classifier inlined in the `classify` branch of `/resposta`
(src/app.py lines 366-372), as a pure function of the stripped speech and
digits. -/
def classifyRole (speech digits : Str) : Option Profile :=
  let t := toLowerS speech
  if digits = strL "1" || containsSub (strL "profiss") t ||
     containsSub (strL "cabeleireir") t || containsSub (strL "salão") t then
    some Profile.pro
  else if digits = strL "2" || containsSub (strL "cliente") t ||
          containsSub (strL "final") t then
    some Profile.final
  else
    none

/-- The yes/no classifier inlined in the `ask_whatsapp` branch of `/resposta`
(src/app.py lines 427-434): digits first, then keyword lists. -/
def classifyYesNo (speech digits : Str) : Option Bool :=
  if digits = strL "1" || digits = strL "2" then some (decide (digits = strL "1"))
  else if is_yes speech then some true
  else if is_no speech then some false
  else none

/-- Dialogue stages; the source stores these as the strings "classify",
"ask_city", "ask_experience", "ask_instagram", "ask_whatsapp", "final_flow"
and "wrap".  The spec names them Classify, AskCity, AskExperience, AskHandle,
AskConsent, FinalProfileClosing and Wrap. -/
inductive Stage
  | classify
  | ask_city
  | ask_experience
  | ask_instagram
  | ask_whatsapp
  | final_flow
  | wrap
deriving DecidableEq

/-- The `data` slot dictionary of a session. -/
structure SessData where
  profile : Option Profile := none
  city : Option Str := none
  experience : Option Str := none
  instagram : Option Str := none
  wa_consent : Option Bool := none
deriving DecidableEq

/-- One session value, the JSON object stored under `sess:<call_sid>`. -/
structure Session where
  state : Stage := Stage.classify
  data : SessData := {}
  wa_sent : Bool := false
deriving DecidableEq

/-- Speaker of one conversation turn. -/
inductive Role
  | user
  | assistant
deriving DecidableEq

/-- One conversation log entry. -/
structure Turn where
  role : Role
  content : Str
deriving DecidableEq

/-- The per-call slice of the store: the value under `sess:<sid>` (absent
when the key is missing) and the list under `conv:<sid>`.  All store
operations in the source are scoped to one call id. -/
structure CallStore where
  sess : Option Session := none
  conv : List Turn := []
deriving DecidableEq

/-- `get_session` from src/app.py: read the raw value and materialize the
default session `{"state": "classify", "data": {}, "wa_sent": false}` when
the value is absent. -/
def get_session (st : CallStore) : Session :=
  match st.sess with
  | some s => s
  | none => {}

/-- `next_state` from src/app.py. -/
def next_state (current : Stage) (profile : Option Profile) : Stage :=
  match current with
  | Stage.classify =>
    if profile ≠ some Profile.final then Stage.ask_city else Stage.final_flow
  | Stage.ask_city => Stage.ask_experience
  | Stage.ask_experience => Stage.ask_instagram
  | Stage.ask_instagram => Stage.ask_whatsapp
  | Stage.ask_whatsapp => Stage.wrap
  | _ => Stage.wrap

/-- Python `x or default` on an optional string slot. -/
def orDefault (v : Option Str) (dflt : Str) : Str :=
  match v with
  | some s => if s = [] then dflt else s
  | none => dflt

def intro_text : Str := strL "Oiê! Aqui é a Pat Glam, da Glam Hair Brand."

def first_prompt : Str :=
  strL "Você é profissional da beleza ou uma Patricia Final curiosa? Se preferir, tecle 1 para profissional, ou 2 para cliente final."

def ask_city_text : Str :=
  strL "Atende em qual cidade, amor? Assim eu anoto com glitter dourado aqui."

def ask_experience_text : Str :=
  strL "E você já trabalha com extensões? Qual método usa hoje no salão?"

def ask_instagram_text : Str :=
  strL "Me passa o arroba do Instagram do salão ou o seu, por favor."

def ask_whatsapp_text : Str :=
  strL "Posso pedir para nossa equipe te chamar no WhatsApp para credenciar, enviar catálogo e detalhes da Masterclass? Diga \x27sim\x27 ou \x27não\x27. Se preferir, tecle 1 para sim, 2 para não."

/-- `handle_final_flow` from src/app.py: the single explanatory message of
the consumer branch. -/
def final_flow_text : Str :=
  strL "Ah, então você é uma Patrícia Final — das que só aceitam o melhor, né? 💁‍♀️ A Glam vende apenas para profissionais credenciados. Indica nosso método para sua cabeleireira e acompanha a gente no Instagram pra mais dicas e brilho!"

def final_bye_text : Str :=
  strL "Obrigada pelo carinho! Se quiser, peça para sua cabeleireira falar com a Glam. Beijos!"

def reprompt_classify : Str :=
  strL "Não peguei. Você é profissional (tecle 1) ou cliente final (tecle 2)?"

def reprompt_city : Str := strL "Não captei a cidade. Diz pra mim qual é?"

def reprompt_experience : Str :=
  strL "Me conta rapidinho: você já trabalha com extensões? Qual método usa hoje?"

def reprompt_instagram : Str :=
  strL "Passa o arroba do Instagram do salão ou o seu, por favor."

def reprompt_whatsapp : Str :=
  strL "Só pra confirmar: posso pedir para a equipe te chamar no WhatsApp? Diga \x27sim\x27 ou \x27não\x27. (1 para sim, 2 para não)"

def reprompt_default : Str :=
  strL "Desculpa, me perdi no salto alto aqui. Vamos de novo? Você é profissional (1) ou cliente final (2)?"

def wrap_followup_text : Str :=
  strL "Se precisar de algo agora, pode dizer. Se não, eu já vou te deixar brilhar!"

def wrap_bye_text : Str := strL "Beijinhos e até já!"

def wa_sent_log_text : Str := strL "WhatsApp enviado ao final da ligação."

def greeting_log_text : Str := strL "Saudação inicial."

/-- `wrap_up` from src/app.py. -/
def wrap_up (d : SessData) : Str :=
  strL "Perfeito, Patrícia poderosa! Anotei: cidade " ++ orDefault d.city (strL "sua cidade") ++
  strL ", experiência " ++ orDefault d.experience (strL "seu método") ++
  strL ", Insta " ++ orDefault d.instagram (strL "seu Instagram") ++
  strL ". Glamour é essencial — nos vemos em breve! Posso te ajudar em mais alguma coisa?"

/-- Deployment switches read from the environment in the source, plus the
outcome of the one Twilio WhatsApp send (an external collaborator). -/
structure Config where
  whatsapp_autosend : Bool := false
  has_whatsapp_from : Bool := false
  wa_send_ok : Bool := true

/-- One inbound `/resposta` request: raw recognized speech and raw digits
(the handler strips both). -/
structure TurnInput where
  speech : Str := []
  digits : Str := []

/-- The observable reply of one handler invocation: say-texts of the TwiML
response, in order (tone rewriting and SSML wrapping do not affect state and
are omitted), and whether the response hangs up. -/
structure TurnOutput where
  reply : List Str
  hangup : Bool
deriving DecidableEq

/-- The `/resposta` webhook handler from src/app.py (lines 340-486) as a pure
transition on the per-call store. -/
def resposta (cfg : Config) (st : CallStore) (inp : TurnInput) : CallStore × TurnOutput :=
  let speech := pyStrip inp.speech
  let digits := pyStrip inp.digits
  -- the user-turn append below never touches the session key, so reading the
  -- session before or after it is equivalent; the source reads it after
  let sess := get_session st
  let st := if speech ≠ [] then { st with conv := st.conv ++ [⟨Role.user, speech⟩] } else st
  let data := sess.data
  match sess.state with
  | Stage.classify =>
    match classifyRole speech digits with
    | none => (st, ⟨[reprompt_classify], false⟩)
    | some p =>
      let sess := { sess with state := next_state Stage.classify (some p),
                              data := { data with profile := some p } }
      let st := { st with sess := some sess }
      match p with
      | Profile.final =>
        ({ st with conv := st.conv ++ [⟨Role.assistant, final_flow_text⟩] },
         ⟨[final_flow_text, final_bye_text], true⟩)
      | Profile.pro => (st, ⟨[ask_city_text], false⟩)
  | Stage.ask_city =>
    if speech = [] then (st, ⟨[reprompt_city], false⟩)
    else
      let sess := { sess with state := next_state Stage.ask_city none,
                              data := { data with city := some speech } }
      ({ st with sess := some sess }, ⟨[ask_experience_text], false⟩)
  | Stage.ask_experience =>
    if speech = [] then (st, ⟨[reprompt_experience], false⟩)
    else
      let sess := { sess with state := next_state Stage.ask_experience none,
                              data := { data with experience := some speech } }
      ({ st with sess := some sess }, ⟨[ask_instagram_text], false⟩)
  | Stage.ask_instagram =>
    if speech = [] then (st, ⟨[reprompt_instagram], false⟩)
    else
      let sess := { sess with state := next_state Stage.ask_instagram none,
                              data := { data with instagram := some (looks_like_instagram speech) } }
      ({ st with sess := some sess }, ⟨[ask_whatsapp_text], false⟩)
  | Stage.ask_whatsapp =>
    match classifyYesNo speech digits with
    | none => (st, ⟨[reprompt_whatsapp], false⟩)
    | some consent =>
      let data := { data with wa_consent := some consent }
      let sess := { sess with state := next_state Stage.ask_whatsapp none, data := data }
      let st := { st with sess := some sess }
      let st :=
        if consent && cfg.whatsapp_autosend && cfg.has_whatsapp_from && cfg.wa_send_ok then
          { st with sess := some { sess with wa_sent := true },
                    conv := st.conv ++ [⟨Role.assistant, wa_sent_log_text⟩] }
        else st
      ({ st with conv := st.conv ++ [⟨Role.assistant, wrap_up data⟩] },
       ⟨[wrap_up data, wrap_followup_text, wrap_bye_text], false⟩)
  | Stage.final_flow => (st, ⟨[reprompt_default], false⟩)
  | Stage.wrap => (st, ⟨[reprompt_default], false⟩)

/-- The `/voice` call-start handler from src/app.py (lines 326-338):
unconditionally write a fresh session, log the greeting, speak the intro and
the first question. -/
def voice (st : CallStore) : CallStore × TurnOutput :=
  ({ st with sess := some { state := Stage.classify, data := {}, wa_sent := false },
             conv := st.conv ++ [⟨Role.assistant, greeting_log_text⟩] },
   ⟨[intro_text, first_prompt], false⟩)

/-- Run a sequence of `/resposta` turns, collecting the outputs. -/
def runTurns (cfg : Config) (st : CallStore) : List TurnInput → CallStore × List TurnOutput
  | [] => (st, [])
  | i :: is =>
    let r := resposta cfg st i
    let rest := runTurns cfg r.1 is
    (rest.1, r.2 :: rest.2)

/-- Python `"\n".join`. -/
def joinNl : List Str → Str
  | [] => []
  | [s] => s
  | s :: rest => s ++ '\n' :: joinNl rest

/-- Raw role names as stored in the conversation log. -/
def roleName : Role → Str
  | Role.user => strL "user"
  | Role.assistant => strL "assistant"

/-- The except-branch of `summarize_history` (src/app.py lines 592-595): a
verbatim transcript dump headed by the call id and an unavailability label. -/
def fallback_summary (history : List Turn) (call_sid : Str) : Str :=
  strL "CallSid: " ++ (call_sid ++
    (strL "\nResumo indisponível (erro ao gerar).\n\nTranscrição bruta:\n" ++
      (if joinNl (history.map (fun m => roleName m.role ++ (strL ": " ++ m.content))) = []
       then strL "(sem histórico)"
       else joinNl (history.map (fun m => roleName m.role ++ (strL ": " ++ m.content))))))

/-- `summarize_history` from src/app.py (lines 554-595), with the generation
collaborator abstracted: `gen = some content` is a successful chat completion
returning `content`, `gen = none` is any raised failure (timeout, auth,
malformed response), which lands in the except branch.  The duration and
number metadata feed only the prompt of the external call, not the fallback. -/
def summarize_history (gen : Option Str) (history : List Turn)
    (call_sid _duration _from_number _to_number : Str) : Str :=
  match gen with
  | some content =>
    if pyStrip content ≠ [] then pyStrip content
    else strL "CallSid: " ++ call_sid ++ strL "\n(Conversa vazia para resumir)"
  | none => fallback_summary history call_sid

/-- The observable state of the completion pipeline for one call id: the
store slice plus counters of summarization and email-dispatch attempts. -/
structure CbState where
  store : CallStore := {}
  summarize_attempts : Nat := 0
  dispatch_attempts : Nat := 0
  sent_summaries : List Str := []
deriving DecidableEq

/-- The `/status_callback` handler from src/app.py (lines 505-527) for one
call id: on "completed" it reads the conversation, summarizes, dispatches the
summary email, and finally clears session and conversation (`clear_session`);
every other status only logs. -/
def status_callback (gen : Option Str) (call_sid status duration from_number to_number : Str)
    (s : CbState) : CbState :=
  if status = strL "completed" then
    { store := {},
      summarize_attempts := s.summarize_attempts + 1,
      dispatch_attempts := s.dispatch_attempts + 1,
      sent_summaries := s.sent_summaries ++
        [summarize_history gen s.store.conv call_sid duration from_number to_number] }
  else s

/-- Prefix "@" when the text neither starts with nor contains "@". -/
def atRule (t : Str) : Str :=
  if isPre (strL "@") t then t
  else if containsSub (strL "@") t then t
  else '@' :: t

/-- Modelled from the claim C5 sentence, read literally and in the order the
sentence lists the operations: lower-case, strip internal whitespace,
replace "arroba" with "@", then the "@"-prefix rule; empty maps to empty. -/
def normalizeHandleSpec (text : Str) : Str :=
  let t := pyReplace (strL "arroba") (strL "@") ((toLowerS text).filter (fun c => !(isPyWs c)))
  if t = [] then [] else atRule t

/-- The amended C5 normalization: strip only the ends; replace the exact
lower-case word "arroba" before any case folding; remove only space
characters; lower-case; then the "@"-prefix rule. -/
def normalizeHandleAmended (text : Str) : Str :=
  if pyStrip text = [] then []
  else atRule (toLowerS ((pyReplace (strL "arroba") (strL "@") (pyStrip text)).filter
    (fun c => !(c = ' '))))

/-- Rank of a stage along the transition order of spec §4.3 (the consumer
closing stage is ranked last; any rank above classify works for it, since
nothing leaves it). -/
def stageRank : Stage → Nat
  | Stage.classify => 0
  | Stage.ask_city => 1
  | Stage.ask_experience => 2
  | Stage.ask_instagram => 3
  | Stage.ask_whatsapp => 4
  | Stage.wrap => 5
  | Stage.final_flow => 6

/-- The transition table of claim C6 (spec §4.3) on the stages the code
realizes; the spec edge Wrap→Done has no code counterpart (the code never
leaves "wrap"), which keeps every code transition inside the table. -/
def stageEdge : Stage → Stage → Bool
  | Stage.classify, Stage.ask_city => true
  | Stage.classify, Stage.final_flow => true
  | Stage.ask_city, Stage.ask_experience => true
  | Stage.ask_experience, Stage.ask_instagram => true
  | Stage.ask_instagram, Stage.ask_whatsapp => true
  | Stage.ask_whatsapp, Stage.wrap => true
  | _, _ => false

/-- The reprompt text the `/resposta` handler emits at each stage on
unusable input (empty or unclassifiable). -/
def stageReprompt : Stage → Str
  | Stage.classify => reprompt_classify
  | Stage.ask_city => reprompt_city
  | Stage.ask_experience => reprompt_experience
  | Stage.ask_instagram => reprompt_instagram
  | Stage.ask_whatsapp => reprompt_whatsapp
  | Stage.final_flow => reprompt_default
  | Stage.wrap => reprompt_default

/-- Concrete pre-termination pipeline state used by the C2 evaluation: a call
that reached "wrap" with one logged user turn. -/
def cb_initial : CbState :=
  { store := { sess := some { state := Stage.wrap,
                              data := { profile := some Profile.pro,
                                        city := some (strL "Goiânia") },
                              wa_sent := false },
               conv := [⟨Role.user, strL "sou profissional"⟩] },
    summarize_attempts := 0,
    dispatch_attempts := 0,
    sent_summaries := [] }

/-- One delivery of the "completed" notification to `cb_initial`. -/
def cb_once : CbState :=
  status_callback none (strL "CA123") (strL "completed") (strL "42")
    (strL "+15550100") (strL "+15550111") cb_initial

/-- A duplicate second delivery of the same notification. -/
def cb_twice : CbState :=
  status_callback none (strL "CA123") (strL "completed") (strL "42")
    (strL "+15550100") (strL "+15550111") cb_once

/-! ### Helper lemmas about the string model -/

theorem isPre_append_self : ∀ (a b : Str), isPre a (a ++ b) = true
  | [], _ => rfl
  | c :: cs, b => by simp [isPre, isPre_append_self cs b]

theorem isPre_extend : ∀ {p s : Str} (u : Str), isPre p s = true → isPre p (s ++ u) = true
  | [], _, _, _ => rfl
  | _ :: _, [], _, h => by simp [isPre] at h
  | _ :: _, _ :: _, u, h => by
    simp [isPre] at h ⊢
    exact ⟨h.1, isPre_extend u h.2⟩

theorem containsSub_nil : ∀ (u : Str), containsSub [] u = true
  | [] => rfl
  | _ :: _ => by simp [containsSub, isPre]

theorem containsSub_of_isPre {p s : Str} (h : isPre p s = true) : containsSub p s = true := by
  cases s with
  | nil => simpa [containsSub] using h
  | cons c cs => simp [containsSub, h]

theorem containsSub_append_left {p s : Str} (t : Str) (h : containsSub p s = true) :
    containsSub p (t ++ s) = true := by
  induction t with
  | nil => simpa using h
  | cons c cs ih => simp [containsSub, ih]

theorem containsSub_append_right {p : Str} :
    ∀ {s : Str} (u : Str), containsSub p s = true → containsSub p (s ++ u) = true := by
  intro s
  induction s with
  | nil =>
    intro u h
    have hp : p = [] := by
      cases p with
      | nil => rfl
      | cons a as => simp [containsSub, isPre] at h
    subst hp
    simpa using containsSub_nil u
  | cons c cs ih =>
    intro u h
    simp [containsSub] at h
    rcases h with h | h
    · have h2 := isPre_extend u h
      rw [List.cons_append] at h2
      simp [containsSub, h2]
    · have h2 := ih u h
      simp [containsSub, h2]

theorem containsSub_nil_elim {p : Str} (h : containsSub p [] = true) : p = [] := by
  cases p with
  | nil => rfl
  | cons a as => simp [containsSub, isPre] at h

theorem dropWhile_eq_self_of_all {p : Char → Bool} {l : Str} (h : ∀ c ∈ l, p c = false) :
    l.dropWhile p = l := by
  cases l with
  | nil => rfl
  | cons c cs => simp [List.dropWhile, h c (by simp)]

theorem pyStrip_eq_self_of_all {l : Str} (h : ∀ c ∈ l, isPyWs c = false) : pyStrip l = l := by
  unfold pyStrip
  rw [dropWhile_eq_self_of_all h, dropWhile_eq_self_of_all, List.reverse_reverse]
  intro c hc
  exact h c (List.mem_reverse.mp hc)

theorem replAux_id {pat rep : Str} {l : Str} (h : containsSub pat l = false) :
    replAux pat rep l 0 = l := by
  induction l with
  | nil => rfl
  | cons c cs ih =>
    simp [containsSub] at h
    simp [replAux, h.1, ih h.2]

theorem pyReplace_id {pat rep l : Str} (h : containsSub pat l = false) :
    pyReplace pat rep l = l :=
  replAux_id h

theorem containsSub_single_false {a : Char} {l : Str} (h : ∀ c ∈ l, ¬(c = a)) :
    containsSub [a] l = false := by
  induction l with
  | nil => rfl
  | cons c cs ih =>
    simp [containsSub, isPre]
    refine ⟨fun he => h c (by simp) he.symm, ?_⟩
    exact ih fun d hd => h d (by simp [hd])

theorem toLowerC_id {c : Char} (h : isUpper c = false) : toLowerC c = c := by
  simp [toLowerC, h]

theorem toLowerS_id {l : Str} (h : ∀ c ∈ l, isUpper c = false) : toLowerS l = l := by
  induction l with
  | nil => rfl
  | cons c cs ih =>
    simp [toLowerS] at ih ⊢
    exact ⟨toLowerC_id (h c (by simp)), ih fun d hd => h d (by simp [hd])⟩

theorem pyReplace_space_eq_filter : ∀ l : Str,
    pyReplace (strL " ") [] l = l.filter (fun c => !(c = ' '))
  | [] => rfl
  | c :: cs => by
    by_cases hc : c = ' '
    · subst hc
      simpa [pyReplace, replAux, isPre, strL] using pyReplace_space_eq_filter cs
    · have hc2 : ¬(' ' = c) := fun h => hc h.symm
      simpa [pyReplace, replAux, isPre, strL, hc, hc2] using pyReplace_space_eq_filter cs

theorem get_session_set_conv (st : CallStore) (c : List Turn) :
    get_session { sess := st.sess, conv := c } = get_session st := rfl

theorem get_session_set_sess (s : Session) (c : List Turn) :
    get_session { sess := some s, conv := c } = s := rfl

theorem containsSub_joinNl {p s : Str} : ∀ {l : List Str}, s ∈ l → containsSub p s = true →
    containsSub p (joinNl l) = true := by
  intro l
  induction l with
  | nil => intro hs _; cases hs
  | cons a rest ih =>
    intro hs hp
    rcases List.mem_cons.mp hs with rfl | hs2
    · cases rest with
      | nil => simpa [joinNl] using hp
      | cons b bs =>
        show containsSub p (s ++ '\n' :: joinNl (b :: bs)) = true
        exact containsSub_append_right _ hp
    · cases rest with
      | nil => cases hs2
      | cons b bs =>
        show containsSub p (a ++ '\n' :: joinNl (b :: bs)) = true
        apply containsSub_append_left
        have hj := ih hs2 hp
        simp [containsSub, hj]

theorem get_session_eq_of_sess {a b : CallStore} (h : a.sess = b.sess) :
    get_session a = get_session b := by
  unfold get_session
  rw [h]

theorem get_session_of_sess_some {a : CallStore} {s : Session} (h : a.sess = some s) :
    get_session a = s := by
  unfold get_session
  rw [h]

/-! ### Claim theorems -/

/-- C1, counterexample: the claim requires digit "2" with speech containing a
Professional keyword to classify as Consumer; the code classifies the pair
("sou profissional", digit "2") as Professional, because the Professional
keyword test is disjoined with the digit-"1" test and evaluated before the
digit-"2" test. -/
theorem digit_precedence_counterexample :
    classifyRole (strL "sou profissional") (strL "2") = some Profile.pro ∧
    Profile.pro ≠ Profile.final := by decide

/-- C1, amended: digit input decides `classifyYesNo` for every input pair,
and digit "1" decides `classifyRole` over any conflicting speech (so "1"
with a Consumer keyword yields Professional); digit "2" decides
`classifyRole` only when the speech contains no Professional keyword, and
loses to speech containing one. -/
theorem digit_precedence_amended :
    (∀ speech : Str, classifyRole speech (strL "1") = some Profile.pro) ∧
    (∀ speech : Str, classifyYesNo speech (strL "1") = some true) ∧
    (∀ speech : Str, classifyYesNo speech (strL "2") = some false) ∧
    (∀ speech : Str,
      containsSub (strL "profiss") (toLowerS speech) = false →
      containsSub (strL "cabeleireir") (toLowerS speech) = false →
      containsSub (strL "salão") (toLowerS speech) = false →
      classifyRole speech (strL "2") = some Profile.final) ∧
    classifyRole (strL "quero ser cliente") (strL "1") = some Profile.pro ∧
    classifyRole (strL "sou profissional") (strL "2") = some Profile.pro := by
  refine ⟨fun s => rfl, fun s => rfl, fun s => rfl, ?_, by decide, by decide⟩
  intro s h1 h2 h3
  simp only [classifyRole]
  rw [h1, h2, h3, if_neg (by decide), if_pos (by simp)]

/-- Witness for the amended C1 theorem: digit "2" with Consumer-compatible
speech is Consumer. -/
theorem digit_precedence_amended_witness :
    classifyRole (strL "bom dia") (strL "2") = some Profile.final :=
  digit_precedence_amended.2.2.2.1 (strL "bom dia") (by decide) (by decide) (by decide)

set_option maxRecDepth 10000 in
/-- C2, evaluation at the failing input: two "completed" notifications for
the same call id.  After the first, session and conversation are gone, but
the second still performs a summarization attempt (over the now-empty
transcript) and a dispatch attempt, so both counters reach two — the code
has no one-time-consumption marker. -/
theorem duplicate_completed_not_idempotent :
    cb_once.store.sess = none ∧ cb_once.store.conv = [] ∧
    cb_once.summarize_attempts = 1 ∧ cb_once.dispatch_attempts = 1 ∧
    cb_twice.summarize_attempts = 2 ∧ cb_twice.dispatch_attempts = 2 ∧
    cb_twice.sent_summaries.length = 2 := by decide

/-- C3, counterexample: with no stored session, `get_session` does not
return an explicit no-session result; it materializes the default session
inside the accessor. -/
theorem get_session_default_counterexample :
    ({} : CallStore).sess = none ∧
    get_session {} = { state := Stage.classify, data := {}, wa_sent := false } :=
  ⟨rfl, rfl⟩

/-- C3, amended: for every store slice whose session key is absent,
`get_session` returns the default session (stage classify, empty slots,
wa_sent false) materialized inside the accessor, never a no-session result. -/
theorem get_session_default_amended (st : CallStore) (h : st.sess = none) :
    get_session st = { state := Stage.classify, data := {}, wa_sent := false } := by
  unfold get_session
  rw [h]

/-- Witness for the amended C3 theorem at the empty store. -/
theorem get_session_default_amended_witness :
    get_session { sess := none, conv := [] } =
      { state := Stage.classify, data := {}, wa_sent := false } :=
  get_session_default_amended { sess := none, conv := [] } rfl

/-- C4, counterexample: the handle normalizer is not idempotent; removing
the internal space of "ar roba" creates a fresh "arroba" token, which the
second pass turns into "@". -/
theorem normalize_not_idempotent_counterexample :
    looks_like_instagram (strL "ar roba") = strL "@arroba" ∧
    looks_like_instagram (looks_like_instagram (strL "ar roba")) = strL "@@" ∧
    looks_like_instagram (looks_like_instagram (strL "ar roba")) ≠
      looks_like_instagram (strL "ar roba") := by decide

/-- C5, counterexample: the code keeps internal non-space whitespace (the
tab survives) and does not replace upper-case spellings of "arroba", while
the claim requires all internal whitespace stripped and the spoken word for
"at" replaced. -/
theorem normalize_spec_counterexample :
    looks_like_instagram (strL "a\tb") = strL "@a\tb" ∧
    normalizeHandleSpec (strL "a\tb") = strL "@ab" ∧
    looks_like_instagram (strL "a\tb") ≠ normalizeHandleSpec (strL "a\tb") ∧
    looks_like_instagram (strL "ARROBA glam") = strL "@arrobaglam" ∧
    normalizeHandleSpec (strL "ARROBA glam") = strL "@glam" := by decide

/-- C8: a turn with empty speech and empty digits leaves the whole per-call
store untouched (session and conversation log) and replies with the current
stage's reprompt without hanging up, at every stage. -/
theorem empty_turn_reprompt (cfg : Config) (st : CallStore) :
    resposta cfg st { speech := [], digits := [] } =
      (st, ⟨[stageReprompt (get_session st).state], false⟩) := by
  have hr : classifyRole [] [] = none := by decide
  have hy : classifyYesNo [] [] = none := by decide
  cases hs : (get_session st).state <;>
    simp [resposta, hs, hr, hy, stageReprompt, pyStrip]

/-- C9: with the generation collaborator failing (`gen = none`), the
summarizer output is the deterministic fallback: it does not depend on the
duration or number metadata, starts with a header naming the call id,
carries the unavailability label, is never empty, and contains every logged
turn content verbatim. -/
theorem fallback_summary_deterministic (h : List Turn) (sid d1 f1 t1 d2 f2 t2 : Str) :
    summarize_history none h sid d1 f1 t1 = summarize_history none h sid d2 f2 t2 ∧
    isPre (strL "CallSid: " ++ sid) (summarize_history none h sid d1 f1 t1) = true ∧
    containsSub (strL "Resumo indisponível (erro ao gerar)")
      (summarize_history none h sid d1 f1 t1) = true ∧
    summarize_history none h sid d1 f1 t1 ≠ [] ∧
    ∀ m ∈ h, containsSub m.content (summarize_history none h sid d1 f1 t1) = true := by
  refine ⟨rfl, ?_, ?_, ?_, ?_⟩
  · show isPre (strL "CallSid: " ++ sid) (fallback_summary h sid) = true
    unfold fallback_summary
    rw [← List.append_assoc]
    exact isPre_append_self _ _
  · show containsSub _ (fallback_summary h sid) = true
    unfold fallback_summary
    apply containsSub_append_left
    apply containsSub_append_left
    exact containsSub_append_right _ (by decide)
  · show fallback_summary h sid ≠ []
    unfold fallback_summary
    intro hEq
    exact absurd (List.append_eq_nil.mp hEq).1 (by decide)
  · intro m hm
    show containsSub m.content (fallback_summary h sid) = true
    unfold fallback_summary
    apply containsSub_append_left
    apply containsSub_append_left
    apply containsSub_append_left
    have hline : containsSub m.content (roleName m.role ++ (strL ": " ++ m.content)) = true := by
      apply containsSub_append_left
      apply containsSub_append_left
      exact containsSub_of_isPre (by simpa using isPre_append_self m.content [])
    have hjoin : containsSub m.content
        (joinNl (h.map (fun t => roleName t.role ++ (strL ": " ++ t.content)))) = true :=
      containsSub_joinNl (List.mem_map_of_mem _ hm) hline
    by_cases hnil :
        joinNl (h.map (fun t => roleName t.role ++ (strL ": " ++ t.content))) = []
    · rw [hnil] at hjoin
      rw [if_pos hnil, containsSub_nil_elim hjoin]
      exact containsSub_nil _
    · rw [if_neg hnil]
      exact hjoin

/-- Witness for the C9 theorem at a one-turn transcript. -/
theorem fallback_summary_deterministic_witness :
    containsSub (strL "oi")
      (summarize_history none [⟨Role.user, strL "oi"⟩] (strL "CA1") [] [] []) = true :=
  (fallback_summary_deterministic [⟨Role.user, strL "oi"⟩] (strL "CA1")
      [] [] [] [] [] []).2.2.2.2 ⟨Role.user, strL "oi"⟩ (by decide)

/-- C10: every `/voice` request overwrites the session under its call id
with a fresh classify-stage session with empty slots and dispatched-false,
regardless of what was stored — so a replayed call-start mid-call erases all
collected slots — and appends the greeting to the log. -/
theorem voice_overwrites_session (st : CallStore) :
    (voice st).1.sess = some { state := Stage.classify, data := {}, wa_sent := false } ∧
    (voice st).1.conv = st.conv ++ [⟨Role.assistant, greeting_log_text⟩] ∧
    (voice st).2 = ⟨[intro_text, first_prompt], false⟩ :=
  ⟨rfl, rfl, rfl⟩

/-- C5, amended: for every utterance the normalizer strips the ends (empty
maps to empty), replaces the exact lower-case word "arroba" with "@" before
case folding (upper-case spellings are not replaced), removes only space
characters (other internal whitespace is kept), lower-cases, and prefixes
"@" when the result neither starts with nor contains "@"; in particular
"arroba joaosilva" maps to "@joaosilva". -/
theorem normalize_handle_amended :
    (∀ x : Str, looks_like_instagram x = normalizeHandleAmended x) ∧
    looks_like_instagram [] = [] ∧
    looks_like_instagram (strL "arroba joaosilva") = strL "@joaosilva" := by
  refine ⟨?_, by decide, by decide⟩
  intro x
  unfold looks_like_instagram normalizeHandleAmended atRule igCore
  rw [pyReplace_space_eq_filter]

/-- C4, amended: the handle normalizer is idempotent on every input with no
whitespace, no ASCII upper-case letter and no occurrence of "arroba" — the
inputs on which normalization cannot manufacture a fresh "arroba" token; on
other inputs idempotence can fail (see the counterexample). -/
theorem normalize_idempotent_amended (x : Str)
    (hw : ∀ c ∈ x, isPyWs c = false)
    (hu : ∀ c ∈ x, isUpper c = false)
    (ha : containsSub (strL "arroba") x = false) :
    looks_like_instagram (looks_like_instagram x) = looks_like_instagram x := by
  have hspace : ∀ c ∈ x, ¬(c = ' ') := by
    intro c hc he
    have h1 := hw c hc
    rw [he] at h1
    simp [isPyWs] at h1
  have hnos : containsSub (strL " ") x = false := containsSub_single_false hspace
  have hstrip : pyStrip x = x := pyStrip_eq_self_of_all hw
  have hcore : igCore x = x := by
    unfold igCore
    rw [hstrip, pyReplace_id ha, pyReplace_id hnos, toLowerS_id hu]
  by_cases hx : x = []
  · subst hx
    rfl
  · by_cases h1 : isPre (strL "@") x = true
    · have hfx : looks_like_instagram x = x := by
        unfold looks_like_instagram
        rw [hstrip, hcore, if_neg hx, if_pos h1]
      rw [hfx]
      exact hfx
    · by_cases h2 : containsSub (strL "@") x = true
      · have hfx : looks_like_instagram x = x := by
          unfold looks_like_instagram
          rw [hstrip, hcore, if_neg hx, if_neg h1, if_pos h2]
        rw [hfx]
        exact hfx
      · have hfx : looks_like_instagram x = '@' :: x := by
          unfold looks_like_instagram
          rw [hstrip, hcore, if_neg hx, if_neg h1, if_neg h2]
        have hw2 : ∀ c ∈ '@' :: x, isPyWs c = false := by
          intro c hc
          rcases List.mem_cons.mp hc with rfl | hc2
          · decide
          · exact hw c hc2
        have hu2 : ∀ c ∈ '@' :: x, isUpper c = false := by
          intro c hc
          rcases List.mem_cons.mp hc with rfl | hc2
          · decide
          · exact hu c hc2
        have hpre : isPre (strL "arroba") ('@' :: x) = false := by
          simp [strL, isPre]
        have ha2 : containsSub (strL "arroba") ('@' :: x) = false := by
          simp [containsSub, hpre, ha]
        have hspace2 : ∀ c ∈ '@' :: x, ¬(c = ' ') := by
          intro c hc
          rcases List.mem_cons.mp hc with rfl | hc2
          · decide
          · exact hspace c hc2
        have hnos2 : containsSub (strL " ") ('@' :: x) = false :=
          containsSub_single_false hspace2
        have hstrip2 : pyStrip ('@' :: x) = '@' :: x := pyStrip_eq_self_of_all hw2
        have hcore2 : igCore ('@' :: x) = '@' :: x := by
          unfold igCore
          rw [hstrip2, pyReplace_id ha2, pyReplace_id hnos2, toLowerS_id hu2]
        have h1b : isPre (strL "@") ('@' :: x) = true := by
          simp [strL, isPre]
        rw [hfx]
        unfold looks_like_instagram
        rw [hstrip2, hcore2, if_neg (by simp : ¬('@' :: x = [])), if_pos h1b]

/-- Witness for the amended C4 theorem at a concrete handle. -/
theorem normalize_idempotent_amended_witness :
    looks_like_instagram (looks_like_instagram (strL "@joaosilva")) =
      looks_like_instagram (strL "@joaosilva") :=
  normalize_idempotent_amended (strL "@joaosilva") (by decide) (by decide) (by decide)

/-- C6: one `/resposta` turn changes the stage only along the edges of
`stageEdge` (the table of spec §4.3 as realized by the code) or leaves it
unchanged, and the stage rank never decreases — reprompt turns keep the
stage as it is, for every configuration, store and input. -/
theorem stage_transitions_monotone (cfg : Config) (st : CallStore) (inp : TurnInput) :
    ((get_session (resposta cfg st inp).1).state = (get_session st).state ∨
     stageEdge (get_session st).state (get_session (resposta cfg st inp).1).state = true) ∧
    stageRank (get_session st).state ≤ stageRank (get_session (resposta cfg st inp).1).state := by
  cases hs : (get_session st).state
  case classify =>
    rcases hp : classifyRole (pyStrip inp.speech) (pyStrip inp.digits) with _ | p
    · have hsess : (resposta cfg st inp).1.sess = st.sess := by
        simp only [resposta, hs, hp]
        split <;> rfl
      rw [get_session_eq_of_sess hsess, hs]
      exact ⟨Or.inl rfl, le_refl _⟩
    · cases p
      case pro =>
        have hsess : (resposta cfg st inp).1.sess =
            some { state := Stage.ask_city,
                   data := { (get_session st).data with profile := some Profile.pro },
                   wa_sent := (get_session st).wa_sent } := by
          simp only [resposta, hs, hp]
          rfl
        rw [get_session_of_sess_some hsess]
        exact ⟨Or.inr rfl, Nat.zero_le _⟩
      case final =>
        have hsess : (resposta cfg st inp).1.sess =
            some { state := Stage.final_flow,
                   data := { (get_session st).data with profile := some Profile.final },
                   wa_sent := (get_session st).wa_sent } := by
          simp only [resposta, hs, hp]
          rfl
        rw [get_session_of_sess_some hsess]
        exact ⟨Or.inr rfl, Nat.zero_le _⟩
  case ask_city =>
    by_cases hsp : pyStrip inp.speech = []
    · have hsess : (resposta cfg st inp).1.sess = st.sess := by
        simp [resposta, hs, hsp]
      rw [get_session_eq_of_sess hsess, hs]
      exact ⟨Or.inl rfl, le_refl _⟩
    · have hsess : (resposta cfg st inp).1.sess =
          some { state := Stage.ask_experience,
                 data := { (get_session st).data with city := some (pyStrip inp.speech) },
                 wa_sent := (get_session st).wa_sent } := by
        simp only [resposta, hs]
        rw [if_neg hsp]
        rfl
      rw [get_session_of_sess_some hsess]
      exact ⟨Or.inr rfl, (by decide : (1 : Nat) ≤ 2)⟩
  case ask_experience =>
    by_cases hsp : pyStrip inp.speech = []
    · have hsess : (resposta cfg st inp).1.sess = st.sess := by
        simp [resposta, hs, hsp]
      rw [get_session_eq_of_sess hsess, hs]
      exact ⟨Or.inl rfl, le_refl _⟩
    · have hsess : (resposta cfg st inp).1.sess =
          some { state := Stage.ask_instagram,
                 data := { (get_session st).data with experience := some (pyStrip inp.speech) },
                 wa_sent := (get_session st).wa_sent } := by
        simp only [resposta, hs]
        rw [if_neg hsp]
        rfl
      rw [get_session_of_sess_some hsess]
      exact ⟨Or.inr rfl, (by decide : (2 : Nat) ≤ 3)⟩
  case ask_instagram =>
    by_cases hsp : pyStrip inp.speech = []
    · have hsess : (resposta cfg st inp).1.sess = st.sess := by
        simp [resposta, hs, hsp]
      rw [get_session_eq_of_sess hsess, hs]
      exact ⟨Or.inl rfl, le_refl _⟩
    · have hsess : (resposta cfg st inp).1.sess =
          some { state := Stage.ask_whatsapp,
                 data := { (get_session st).data with
                            instagram := some (looks_like_instagram (pyStrip inp.speech)) },
                 wa_sent := (get_session st).wa_sent } := by
        simp only [resposta, hs]
        rw [if_neg hsp]
        rfl
      rw [get_session_of_sess_some hsess]
      exact ⟨Or.inr rfl, (by decide : (3 : Nat) ≤ 4)⟩
  case ask_whatsapp =>
    rcases hy : classifyYesNo (pyStrip inp.speech) (pyStrip inp.digits) with _ | c
    · have hsess : (resposta cfg st inp).1.sess = st.sess := by
        simp only [resposta, hs, hy]
        split <;> rfl
      rw [get_session_eq_of_sess hsess, hs]
      exact ⟨Or.inl rfl, le_refl _⟩
    · have hsess : ∃ s : Session,
          (resposta cfg st inp).1.sess = some s ∧ s.state = Stage.wrap := by
        simp only [resposta, hs, hy]
        split <;> exact ⟨_, rfl, rfl⟩
      rcases hsess with ⟨s, hss, hst⟩
      rw [get_session_of_sess_some hss, hst]
      exact ⟨Or.inr rfl, by decide⟩
  case final_flow =>
    have hsess : (resposta cfg st inp).1.sess = st.sess := by
      simp only [resposta, hs]
      split <;> rfl
    rw [get_session_eq_of_sess hsess, hs]
    exact ⟨Or.inl rfl, le_refl _⟩
  case wrap =>
    have hsess : (resposta cfg st inp).1.sess = st.sess := by
      simp only [resposta, hs]
      split <;> rfl
    rw [get_session_eq_of_sess hsess, hs]
    exact ⟨Or.inl rfl, le_refl _⟩

theorem final_flow_step (cfg : Config) (st : CallStore) (inp : TurnInput)
    (h : (get_session st).state = Stage.final_flow) :
    (resposta cfg st inp).1.sess = st.sess ∧
    (resposta cfg st inp).2 = ⟨[reprompt_default], false⟩ := by
  constructor
  · simp only [resposta, h]
    split <;> rfl
  · simp only [resposta, h]

theorem final_flow_run (cfg : Config) (st : CallStore) (inps : List TurnInput)
    (h : (get_session st).state = Stage.final_flow) :
    (get_session (runTurns cfg st inps).1).state = Stage.final_flow ∧
    ∀ out ∈ (runTurns cfg st inps).2, out = ⟨[reprompt_default], false⟩ := by
  induction inps generalizing st with
  | nil =>
    refine ⟨?_, by simp [runTurns]⟩
    simpa [runTurns] using h
  | cons i is ih =>
    obtain ⟨h1, h2⟩ := final_flow_step cfg st i h
    have hstate : (get_session (resposta cfg st i).1).state = Stage.final_flow := by
      rw [get_session_eq_of_sess h1]
      exact h
    obtain ⟨ih1, ih2⟩ := ih _ hstate
    constructor
    · simpa [runTurns] using ih1
    · intro out hout
      have hcase : out = (resposta cfg st i).2 ∨
          out ∈ (runTurns cfg (resposta cfg st i).1 is).2 := by
        simpa [runTurns] using hout
      rcases hcase with rfl | hmem
      · exact h2
      · exact ih2 out hmem

set_option maxRecDepth 10000 in
/-- C7: digit "2" with utterance "sim eu quero" at the classify stage sets
the profile slot to Consumer, moves the stage to the terminal closing stage,
and the call ends after the single explanatory closing message (hangup);
from the closing stage no sequence of further turns ever emits the city,
experience, handle or consent question — only the lost-state reprompt. -/
theorem consumer_branch_terminal :
    ((get_session (resposta {} (voice {}).1
        { speech := strL "sim eu quero", digits := strL "2" }).1).state = Stage.final_flow ∧
     (get_session (resposta {} (voice {}).1
        { speech := strL "sim eu quero", digits := strL "2" }).1).data.profile
        = some Profile.final ∧
     (resposta {} (voice {}).1 { speech := strL "sim eu quero", digits := strL "2" }).2
        = ⟨[final_flow_text, final_bye_text], true⟩) ∧
    ∀ (cfg : Config) (st : CallStore) (inps : List TurnInput),
      (get_session st).state = Stage.final_flow →
      (get_session (runTurns cfg st inps).1).state = Stage.final_flow ∧
      ∀ out ∈ (runTurns cfg st inps).2,
        out.reply = [reprompt_default] ∧
        ask_city_text ∉ out.reply ∧ ask_experience_text ∉ out.reply ∧
        ask_instagram_text ∉ out.reply ∧ ask_whatsapp_text ∉ out.reply := by
  constructor
  · exact ⟨by decide, by decide, by decide⟩
  · intro cfg st inps h
    obtain ⟨h1, h2⟩ := final_flow_run cfg st inps h
    refine ⟨h1, fun out hout => ?_⟩
    rw [h2 out hout]
    refine ⟨rfl, ?_, ?_, ?_, ?_⟩ <;> decide

/-- Witness for the C7 theorem: a concrete closing-stage store stays in the
closing stage under a further turn. -/
theorem consumer_branch_terminal_witness :
    (get_session (runTurns {}
        { sess := some { state := Stage.final_flow, data := {}, wa_sent := false }, conv := [] }
        [{ speech := strL "oi", digits := [] }]).1).state = Stage.final_flow :=
  (consumer_branch_terminal.2 {}
      { sess := some { state := Stage.final_flow, data := {}, wa_sent := false }, conv := [] }
      [{ speech := strL "oi", digits := [] }] (by decide)).1

end PatiCall
